import Mathlib

/-!
Shallow embedding of the nest-pitch-automation pipeline.

The embedding follows the Python sources:
* `llm_pipeline.py`  — `PitchPlanGenerator` (provider adapters, the three
  stage functions, `generate_pitch_plan`, `format_client_info`);
* `notion_extractor.py` — `NotionPitchExtractor` (`find_client_page`,
  `parse_client_page`, `extract_client_data` and the property extractors);
* `slack_bot.py` — `SlackPitchBot.process_pitch_plan` and the
  `/start-pitch` command handler (job-runner notification trace).

Network calls are modelled by passing the call result (or the parsed HTTP
response) as an explicit argument; Python exceptions are modelled with
`PyResult`; Python dictionaries with explicit structures whose fields are
`Option`-valued where key absence matters.
-/

set_option maxRecDepth 100000

namespace NestPitch

/-- A minimal JSON value, the shape of `response.json()` bodies. -/
inductive JVal where
  | str (s : String)
  | num (n : Int)
  | jnull
  | arr (xs : List JVal)
  | obj (fields : List (String × JVal))

/-- Outcome of running a piece of Python code: a value, or a raised
exception (`KeyError`, `IndexError`, `TypeError`, ...). -/
inductive PyResult (α : Type) where
  | ok (a : α)
  | exn (msg : String)
deriving DecidableEq

/-- Sequencing of fallible Python evaluation: an exception propagates. -/
def pyBind {α β : Type} (r : PyResult α) (f : α → PyResult β) : PyResult β :=
  match r with
  | .ok a => f a
  | .exn m => .exn m

/-- Python `v[k]` on a decoded JSON value: `KeyError` when the key is
missing from a dict, `TypeError` when `v` is not a dict. -/
def jGet (v : JVal) (k : String) : PyResult JVal :=
  match v with
  | .obj fs =>
    match fs.find? (fun p => p.1 == k) with
    | some p => .ok p.2
    | none => .exn "KeyError"
  | _ => .exn "TypeError"

/-- Python `v[i]` on a decoded JSON value: `IndexError` when the list is
too short, `TypeError` when `v` is not a list. -/
def jIdx (v : JVal) (i : Nat) : PyResult JVal :=
  match v with
  | .arr xs =>
    match xs.get? i with
    | some x => .ok x
    | none => .exn "IndexError"
  | _ => .exn "TypeError"

/-- A transport-level HTTP response: status code plus decoded JSON body
(`response.status_code`, `response.json()`). -/
structure HttpResponse where
  status : Nat
  body : JVal

/-- `PitchPlanGenerator.openai_chat_completion`, from the point where the
HTTP response is available (`llm_pipeline.py` lines 27-33).  On status
200 it evaluates `response.json()["choices"][0]["message"]["content"]`
(each indexing step may raise); otherwise it prints and returns `None`
(modelled as `.ok none`). -/
def openai_chat_completion (response : HttpResponse) : PyResult (Option JVal) :=
  if response.status = 200 then
    pyBind (jGet response.body "choices") fun choices =>
    pyBind (jIdx choices 0) fun c0 =>
    pyBind (jGet c0 "message") fun msg =>
    pyBind (jGet msg "content") fun content =>
    .ok (some content)
  else
    .ok none

/-- `PitchPlanGenerator.anthropic_completion`, from the point where the
HTTP response is available (`llm_pipeline.py` lines 52-58).  On status
200 it evaluates `response.json()["content"][0]["text"]`; otherwise it
prints and returns `None`. -/
def anthropic_completion (response : HttpResponse) : PyResult (Option JVal) :=
  if response.status = 200 then
    pyBind (jGet response.body "content") fun content =>
    pyBind (jIdx content 0) fun c0 =>
    pyBind (jGet c0 "text") fun t =>
    .ok (some t)
  else
    .ok none

/-- The single-quote character, used by Python `str()` of a list of
strings and by the apostrophes occurring in the prompt templates. -/
def sq : String := String.singleton (Char.ofNat 39)

/-- Python `str`/f-string rendering of a list of strings,
e.g. `str(["Media"])` is `['Media']`. -/
def pyStrOfList (xs : List String) : String :=
  "[" ++ String.intercalate ", " (xs.map fun s => sq ++ s ++ sq) ++ "]"

/-- The client-data dictionary flowing from `parse_client_page` into the
pipeline.  Each field is `Option`-valued: `none` models a missing key, so
that the `dict.get(key, default)` calls of `llm_pipeline.py` can be
modelled faithfully.  `services` holds a list (multi-select). -/
structure ClientDict where
  client_name : Option String
  status : Option String
  services : Option (List String)
  category : Option String
  qualification_call : Option String
  discovery_call : Option String
  discovery_notes : Option String
  pitch_strategy : Option String
  pitch_deck : Option String
  so_owner : Option String
  sales_owner : Option String
deriving DecidableEq

/-- `client_data.get('services', 'Unknown')` as rendered by the f-string
of `format_client_info`. -/
def servicesText (c : ClientDict) : String :=
  match c.services with
  | none => "Unknown"
  | some l => pyStrOfList l

/-- `PitchPlanGenerator.format_client_info` (`llm_pipeline.py` lines
201-217): the f-string template with `dict.get` defaults.  Written
right-nested to ease the substring lemmas below. -/
def format_client_info (c : ClientDict) : String :=
  "\nCLIENT NAME: " ++ (c.client_name.getD "Unknown" ++
  ("\nSTATUS: " ++ (c.status.getD "Unknown" ++
  ("\nCATEGORY: " ++ (c.category.getD "Unknown" ++
  ("\nSERVICES NEEDED: " ++ (servicesText c ++
  ("\nACCOUNT OWNER: " ++ (c.so_owner.getD "Unknown" ++
  ("\nSALES OWNER: " ++ (c.sales_owner.getD "Unknown" ++
  ("\n\nAVAILABLE DATA SOURCES:\n- Qualification Call: " ++ (c.qualification_call.getD "N/A" ++
  ("\n- Discovery Call: " ++ (c.discovery_call.getD "N/A" ++
  ("\n- Discovery Notes: " ++ (c.discovery_notes.getD "N/A" ++
  ("\n- Pitch Strategy: " ++ (c.pitch_strategy.getD "N/A" ++
  "\n")))))))))))))))))))

/-- The fixed text of the Stage-1 prompt before the embedded client info
(`llm_pipeline.py` lines 100-102). -/
def strategicPromptPre : String :=
  "ROLE: Senior Strategy Consultant analyzing B2B agency pitch opportunity\n\nCLIENT INTELLIGENCE:\n"

/-- The fixed text of the Stage-1 prompt after the embedded client info
(`llm_pipeline.py` lines 104-129). -/
def strategicPromptPost : String :=
  "\n\nTASK: Create comprehensive strategic foundation for pitch development with these exact sections:\n\n1. STRATEGIC OBJECTIVES\n   - 3-5 SMART goals aligned with client\x27s stated needs\n   - Connect their business ambitions to measurable outcomes\n\n2. KEY CHALLENGES  \n   - Top 5 prioritized obstacles with impact assessment\n   - Focus on gaps between their ambitions and current state\n\n3. CAPABILITY GAPS\n   - Creative gaps (brand, messaging, content needs)\n   - Media gaps (channel optimization, targeting, measurement)\n   - Process gaps (operations, tech, integration needs)\n   - For each gap, provide specific solution pathway\n\n4. COMPETITIVE CONTEXT\n   - Market positioning opportunities\n   - How to differentiate our approach\n\n5. NARRATIVE HOOKS\n   - Key story elements for compelling pitch narrative\n   - Specific client pain points that create urgency\n\nOUTPUT: Well-structured analysis with clear section headers, client-specific insights."

/-- The Stage-1 user prompt: `strategic_analysis`'s f-string with
`format_client_info` spliced in. -/
def strategicPrompt (c : ClientDict) : String :=
  strategicPromptPre ++ (format_client_info c ++ strategicPromptPost)

/-- The message list passed by `strategic_analysis` to
`openai_chat_completion` (`llm_pipeline.py` lines 131-134). -/
def strategic_messages (c : ClientDict) : List (String × String) :=
  [("system", "You are a senior strategy consultant specializing in B2B agency pitch development."),
   ("user", strategicPrompt c)]

/-- The Stage-2 prompt (`narrative_development`, `llm_pipeline.py` lines
141-160): the client name is `client_data.get('client_name', 'the client')`,
and the f-string embeds the strategic foundation and the name. -/
def narrativePrompt (strategic_foundation : String) (c : ClientDict) : String :=
  let client_name := c.client_name.getD "the client"
  "Transform this strategic analysis into a powerful narrative using SITUATION → FRICTION → SOLUTION framework.\n\nSTRATEGIC FOUNDATION:\n" ++
  (strategic_foundation ++
  ("\n\nCLIENT: " ++
  (client_name ++
  ("\n\nCreate exactly 3 paragraphs:\n\nSITUATION (Paragraph 1): Acknowledge " ++
  (client_name ++
  ("\x27s current position and ambitious goals\nFRICTION (Paragraph 2): Identify the gap between their ambitions and current capabilities  \nSOLUTION (Paragraph 3): Position our agency as the partner that delivers the new operating model they need\n\nREQUIREMENTS:\n- Use " ++
  (client_name ++
  " specifically throughout\n- Reference specific details from the strategic foundation\n- Consultative confidence without overselling\n- 150-200 words each paragraph")))))))

/-- The Stage-3 prompt (`plan_integration`, `llm_pipeline.py` lines
167-192): name default is `'Client'`; embeds both earlier outputs. -/
def planPrompt (strategic_foundation narrative : String) (c : ClientDict) : String :=
  let client_name := c.client_name.getD "Client"
  "Create comprehensive pitch plan integrating strategic analysis with compelling narrative.\n\nSTRATEGIC FOUNDATION:\n" ++
  (strategic_foundation ++
  ("\n\nNARRATIVE:\n" ++
  (narrative ++
  ("\n\nCLIENT: " ++
  (client_name ++
  "\n\nCreate a complete pitch plan with these sections:\n\n1. EXECUTIVE SUMMARY\n2. STRATEGIC FOUNDATION  \n3. PROPOSED APPROACH\n4. CAPABILITY DEMONSTRATION\n5. INVESTMENT & NEXT STEPS\n\nREQUIREMENTS:\n- Strategic insights woven throughout\n- Narrative elements enhance each section\n- Client-specific customization\n- 2000-3000 words total\n- Professional formatting")))))

/-- The message list passed by `plan_integration` to
`openai_chat_completion` (`llm_pipeline.py` lines 194-197). -/
def plan_messages (strategic_foundation narrative : String) (c : ClientDict) :
    List (String × String) :=
  [("system", "You are a pitch plan specialist who creates execution-ready strategic documents."),
   ("user", planPrompt strategic_foundation narrative c)]

/-- `strategic_analysis`: builds the messages and makes one chat-style
adapter call.  The adapter is passed as a function from messages to the
text it returned (`none` models the `None` failure return). -/
def strategic_analysis (openai : List (String × String) → Option String)
    (c : ClientDict) : Option String :=
  openai (strategic_messages c)

/-- `narrative_development`: builds the prompt and makes one
single-prompt-style adapter call. -/
def narrative_development (anthropic : String → Option String)
    (strategic_foundation : String) (c : ClientDict) : Option String :=
  anthropic (narrativePrompt strategic_foundation c)

/-- `plan_integration`: builds the messages and makes one chat-style
adapter call. -/
def plan_integration (openai : List (String × String) → Option String)
    (strategic_foundation narrative : String) (c : ClientDict) : Option String :=
  openai (plan_messages strategic_foundation narrative c)

/-- Python truthiness of an adapter result: `None` and the empty string
are falsy (`if not strategic_foundation: ...`). -/
def pyTruthy : Option String → Bool
  | none => false
  | some s => !s.isEmpty

/-- The three stage identifiers of the pipeline. -/
inductive StageId where
  | strategic_analysis
  | narrative_development
  | plan_integration
deriving DecidableEq, BEq

/-- The `{"error": ...}` message produced by `generate_pitch_plan` for
each failing stage (`llm_pipeline.py` lines 69, 76, 83). -/
def stageErrorMsg : StageId → String
  | .strategic_analysis => "Failed at strategic analysis step"
  | .narrative_development => "Failed at narrative development step"
  | .plan_integration => "Failed at plan integration step"

/-- The dictionary returned by `generate_pitch_plan`: either the
`{"error": msg}` failure dict or the full result bundle
(`llm_pipeline.py` lines 69/76/83 and 87-93). -/
inductive PipelineResult where
  | error (msg : String)
  | bundle (client_name : Option String)
      (strategic_foundation narrative final_plan : String)
      (generated_at : String)
deriving DecidableEq

/-- `PitchPlanGenerator.generate_pitch_plan` (`llm_pipeline.py` lines
60-93), instrumented with the list of stage adapter calls actually made,
in order.  `now` stands for `time.strftime(...)` at completion.  A falsy
stage result (`None` or `""`) short-circuits with the stage's error
dict; later stages are not called. -/
def generate_pitch_plan (openai : List (String × String) → Option String)
    (anthropic : String → Option String) (c : ClientDict) (now : String) :
    PipelineResult × List StageId :=
  let sf := strategic_analysis openai c
  if pyTruthy sf then
    let nv := narrative_development anthropic (sf.getD "") c
    if pyTruthy nv then
      let fp := plan_integration openai (sf.getD "") (nv.getD "") c
      if pyTruthy fp then
        (.bundle c.client_name (sf.getD "") (nv.getD "") (fp.getD "") now,
         [.strategic_analysis, .narrative_development, .plan_integration])
      else
        (.error (stageErrorMsg .plan_integration),
         [.strategic_analysis, .narrative_development, .plan_integration])
    else
      (.error (stageErrorMsg .narrative_development),
       [.strategic_analysis, .narrative_development])
  else
    (.error (stageErrorMsg .strategic_analysis), [.strategic_analysis])

/-- A Notion page property as consumed by the extractors of
`notion_extractor.py`: the property's `type`-tagged payload.  `missing`
models an absent key (the `.get(name, {})` default) or an unexpected
type.  Title and rich-text elements are modelled by their
`text.content` strings. -/
inductive NotionProp where
  | title (contents : List String)
  | rich_text (contents : List String)
  | select (sel : Option String)
  | multi_select (names : List String)
  | url (u : String)
  | missing
deriving DecidableEq

/-- `NotionPitchExtractor.extract_title` (`notion_extractor.py` lines
62-66): first title element's content, or `""`. -/
def extract_title : NotionProp → String
  | .title [] => ""
  | .title (c :: _) => c
  | _ => ""

/-- `extract_rich_text` (lines 68-72): `" ".join` of the contents. -/
def extract_rich_text : NotionProp → String
  | .rich_text cs => String.intercalate " " cs
  | _ => ""

/-- `extract_select` (lines 74-78): the select's name, `""` when the
select object is null or the property is not a select. -/
def extract_select : NotionProp → String
  | .select (some n) => n
  | _ => ""

/-- `extract_multi_select` (lines 80-84). -/
def extract_multi_select : NotionProp → List String
  | .multi_select ns => ns
  | _ => []

/-- `extract_url` (lines 86-89). -/
def extract_url : NotionProp → String
  | .url u => u
  | _ => ""

/-- A page returned by the database query: the named properties read by
`find_client_page` and `parse_client_page`. -/
structure NotionPage where
  nameProp : NotionProp
  statusProp : NotionProp
  servicesProp : NotionProp
  categoryProp : NotionProp
  qualificationCallProp : NotionProp
  discoveryCallProp : NotionProp
  discoveryNotesProp : NotionProp
  pitchStrategyProp : NotionProp
  pitchProp : NotionProp
  soProp : NotionProp
  salesProp : NotionProp
deriving DecidableEq

/-- Lower-cased character data of a string, modelling Python
`s.lower()` for the matching in `find_client_page`. -/
def lowerData (s : String) : List Char := s.data.map Char.toLower

/-- Python `q in s` on character lists: `q` occurs as a contiguous
infix of `s`. -/
def subOf (q : List Char) : List Char → Bool
  | [] => q.isEmpty
  | c :: rest => q.isPrefixOf (c :: rest) || subOf q rest

/-- The match test of `find_client_page` (`notion_extractor.py` line
36): `client_name.lower() in title.lower()`. -/
def pageMatches (client_name : String) (p : NotionPage) : Bool :=
  subOf (lowerData client_name) (lowerData (extract_title p.nameProp))

/-- The parsed response of the database query: `response.status_code`
and the decoded `results` list (defaulting to `[]`). -/
structure NotionQueryResponse where
  status : Nat
  results : List NotionPage
deriving DecidableEq

/-- `NotionPitchExtractor.find_client_page` (`notion_extractor.py` lines
25-39), from the point where the query response is available: on status
200, the first result whose title contains the query case-insensitively;
`None` otherwise (including any non-200 status). -/
def find_client_page (resp : NotionQueryResponse) (client_name : String) :
    Option NotionPage :=
  if resp.status = 200 then
    resp.results.find? (pageMatches client_name)
  else
    none

/-- `NotionPitchExtractor.parse_client_page` (lines 41-60): every key of
the produced dict is present (hence `some`). -/
def parse_client_page (p : NotionPage) : ClientDict where
  client_name := some (extract_title p.nameProp)
  status := some (extract_select p.statusProp)
  services := some (extract_multi_select p.servicesProp)
  category := some (extract_select p.categoryProp)
  qualification_call := some (extract_url p.qualificationCallProp)
  discovery_call := some (extract_url p.discoveryCallProp)
  discovery_notes := some (extract_url p.discoveryNotesProp)
  pitch_strategy := some (extract_url p.pitchStrategyProp)
  pitch_deck := some (extract_url p.pitchProp)
  so_owner := some (extract_rich_text p.soProp)
  sales_owner := some (extract_rich_text p.salesProp)

/-- Result of `extract_client_data`: the `{"error": ...}` dict or the
parsed client dict. -/
inductive ExtractResult where
  | err (msg : String)
  | ok (d : ClientDict)
deriving DecidableEq

/-- The error message `f"Client '{client_name}' not found"`
(`notion_extractor.py` line 20). -/
def clientNotFoundMsg (client_name : String) : String :=
  "Client " ++ sq ++ client_name ++ sq ++ " not found"

/-- `NotionPitchExtractor.extract_client_data` (lines 15-23). -/
def extract_client_data (resp : NotionQueryResponse) (client_name : String) :
    ExtractResult :=
  match find_client_page resp client_name with
  | none => .err (clientNotFoundMsg client_name)
  | some p => .ok (parse_client_page p)

/-- One notification posted to the triggering channel by the command
handler / job runner of `slack_bot.py`.  Each constructor corresponds to
exactly one `respond`/`chat_postMessage` call site; `jrMsgText` below
gives the posted text. -/
inductive JRNotif where
  | starting (client : String)
  | usageError
  | step1 (client : String)
  | notFound (client : String)
  | step2
  | genFailed (msg : String)
  | step3
  | docFailed
  | success (client url : String) (recipients : List String) (generated_at : String)
  | systemError (msg : String)
deriving DecidableEq

/-- The literal message text of each notification, from `slack_bot.py`
(lines 52-61 and 96-123). -/
def jrMsgText : JRNotif → String
  | .starting c =>
    "🚀 Starting pitch plan for **" ++ c ++
      "**...\n⏱️ This will take 5-10 minutes. I\x27ll update you as I progress."
  | .usageError => "❌ Please specify a client name: `/start-pitch ClientName`"
  | .step1 c => "📊 **Step 1/4:** Extracting client data for " ++ c ++ " from Notion..."
  | .notFound c => "❌ **Client not found:** Could not find " ++ sq ++ c ++ sq ++ " in Notion."
  | .step2 => "🧠 **Step 2/4:** Generating strategic analysis and narrative..."
  | .genFailed m => "❌ **Generation failed:** " ++ m
  | .step3 => "📄 **Step 3/4:** Creating formatted Google Doc..."
  | .docFailed => "❌ **Document creation failed**"
  | .success c url recipients generated_at =>
    "✅ **Pitch Plan Complete - " ++ c ++
      "**\n\n🎯 Strategic pitch plan ready for team review\n📄 **Document:** " ++ url ++
      "\n📧 **Shared with:** " ++ String.intercalate ", " recipients ++
      "\n⏱️ **Generated:** " ++ generated_at
  | .systemError m => "❌ **System Error:** " ++ m

/-- `SlackPitchBot.process_pitch_plan` (`slack_bot.py` lines 93-123) as
the ordered trace of notifications it posts.  The three collaborator
calls (extraction, pipeline, document publishing) are passed as their
outcomes; a `PyResult.exn` models the call raising, which the
surrounding `try`/`except` converts into one system-error message.
The notification sink itself is modelled as non-failing. -/
def process_pitch_plan (client_name : String)
    (extractR : PyResult ExtractResult)
    (genR : PyResult PipelineResult)
    (pubR : PyResult (Option String))
    (recipients : List String) : List JRNotif :=
  .step1 client_name ::
    match extractR with
    | .exn m => [.systemError m]
    | .ok (.err _) => [.notFound client_name]
    | .ok (.ok _) =>
      .step2 ::
        match genR with
        | .exn m => [.systemError m]
        | .ok (.error msg) => [.genFailed msg]
        | .ok (.bundle _ _ _ _ generated_at) =>
          .step3 ::
            match pubR with
            | .exn m => [.systemError m]
            | .ok none => [.docFailed]
            | .ok (some url) => [.success client_name url recipients generated_at]

/-- Python `str.strip()`: leading and trailing whitespace removed. -/
def pyStrip (s : String) : String :=
  String.mk (((s.data.dropWhile Char.isWhitespace).reverse.dropWhile
    Char.isWhitespace).reverse)

/-- The `/start-pitch` handler `handle_start_pitch` (`slack_bot.py`
lines 44-70) as the trace of notifications for the triggering channel:
strip the command text; an empty name gets the ephemeral usage message
and no job; otherwise the immediate acknowledgment is posted and the
background job runs. -/
def handle_start_pitch (text : String)
    (extractR : PyResult ExtractResult)
    (genR : PyResult PipelineResult)
    (pubR : PyResult (Option String))
    (recipients : List String) : List JRNotif :=
  let client_name := pyStrip text
  if client_name.isEmpty then
    [.usageError]
  else
    .starting client_name ::
      process_pitch_plan client_name extractR genR pubR recipients

/-- Classification of a notification into the spec's job phases. -/
inductive NotifKind where
  | received
  | extracting
  | generating
  | publishing
  | done
  | failed
deriving DecidableEq

/-- The phase of each notification. -/
def kindOf : JRNotif → NotifKind
  | .starting _ => .received
  | .usageError => .failed
  | .step1 _ => .extracting
  | .notFound _ => .failed
  | .step2 => .generating
  | .genFailed _ => .failed
  | .step3 => .publishing
  | .docFailed => .failed
  | .success _ _ _ _ => .done
  | .systemError _ => .failed

/-- The full-success notification sequence of the spec. -/
def successKinds : List NotifKind :=
  [.received, .extracting, .generating, .publishing, .done]

/-- `v` occurs verbatim, as a contiguous substring, in `s`. -/
def Appears (v s : String) : Prop :=
  ∃ a b : List Char, s.data = a ++ v.data ++ b

/-- The adapter result each stage receives at the moment
`generate_pitch_plan` reaches it: Stage 1 is called on the record, Stage
2 on Stage 1's text, Stage 3 on both earlier texts (mirroring the data
flow of `llm_pipeline.py` lines 66, 73, 80). -/
def stageResult (openai : List (String × String) → Option String)
    (anthropic : String → Option String) (c : ClientDict) :
    StageId → Option String
  | .strategic_analysis => strategic_analysis openai c
  | .narrative_development =>
    narrative_development anthropic ((strategic_analysis openai c).getD "") c
  | .plan_integration =>
    plan_integration openai ((strategic_analysis openai c).getD "")
      ((narrative_development anthropic
        ((strategic_analysis openai c).getD "") c).getD "") c

/-- A concrete client record with only the name set, used to evaluate
the theorems below on explicit inputs. -/
def sampleDict : ClientDict where
  client_name := some "Acme"
  status := none
  services := none
  category := none
  qualification_call := none
  discovery_call := none
  discovery_notes := none
  pitch_strategy := none
  pitch_deck := none
  so_owner := none
  sales_owner := none

/-- A database page titled "Acme Corp" with no other properties. -/
def acmeCorpPage : NotionPage where
  nameProp := .title ["Acme Corp"]
  statusProp := .missing
  servicesProp := .missing
  categoryProp := .missing
  qualificationCallProp := .missing
  discoveryCallProp := .missing
  discoveryNotesProp := .missing
  pitchStrategyProp := .missing
  pitchProp := .missing
  soProp := .missing
  salesProp := .missing

/-- A database page titled "Acme" with every other property absent. -/
def pageNameOnly : NotionPage where
  nameProp := .title ["Acme"]
  statusProp := .missing
  servicesProp := .missing
  categoryProp := .missing
  qualificationCallProp := .missing
  discoveryCallProp := .missing
  discoveryNotesProp := .missing
  pitchStrategyProp := .missing
  pitchProp := .missing
  soProp := .missing
  salesProp := .missing

/-- A database page titled "Acme" whose `Pitch` property carries a
distinctive URL, used to test whether the pitch-deck field reaches the
Stage-1 prompt. -/
def pagePitchDeck : NotionPage where
  nameProp := .title ["Acme"]
  statusProp := .missing
  servicesProp := .missing
  categoryProp := .missing
  qualificationCallProp := .missing
  discoveryCallProp := .missing
  discoveryNotesProp := .missing
  pitchStrategyProp := .missing
  pitchProp := .url "~PITCHDECK~"
  soProp := .missing
  salesProp := .missing

/-! ### Helper lemmas -/

theorem appears_head (v b : String) : Appears v (v ++ b) :=
  ⟨[], b.data, by simp [String.data_append]⟩

theorem appears_cat_right {v b : String} (a : String) (h : Appears v b) :
    Appears v (a ++ b) := by
  obtain ⟨x, y, hxy⟩ := h
  exact ⟨a.data ++ x, y, by simp [String.data_append, hxy]⟩

theorem appears_cat_left {v a : String} (h : Appears v a) (b : String) :
    Appears v (a ++ b) := by
  obtain ⟨x, y, hxy⟩ := h
  exact ⟨x, y ++ b.data, by simp [String.data_append, hxy]⟩

theorem appears_mem {v s : String} (h : Appears v s) {c : Char}
    (hc : c ∈ v.data) : c ∈ s.data := by
  obtain ⟨x, y, hxy⟩ := h
  rw [hxy]
  simp [hc]

theorem isPrefixOf_iff_ex (q s : List Char) :
    q.isPrefixOf s = true ↔ ∃ t, s = q ++ t := by
  induction q generalizing s with
  | nil => simp [List.isPrefixOf]
  | cons a as ih =>
    cases s with
    | nil => simp [List.isPrefixOf]
    | cons b bs =>
      simp only [List.isPrefixOf, Bool.and_eq_true, beq_iff_eq, ih,
        List.cons_append, List.cons.injEq]
      constructor
      · rintro ⟨rfl, t, rfl⟩
        exact ⟨t, rfl, rfl⟩
      · rintro ⟨t, rfl, rfl⟩
        exact ⟨rfl, t, rfl⟩

theorem subOf_iff (q s : List Char) :
    subOf q s = true ↔ ∃ a b, s = a ++ q ++ b := by
  induction s with
  | nil =>
    cases q with
    | nil => exact ⟨fun _ => ⟨[], [], rfl⟩, fun _ => rfl⟩
    | cons c cs =>
      simp only [subOf, List.isEmpty]
      constructor
      · intro h
        cases h
      · rintro ⟨a, b, h⟩
        rcases a with _ | ⟨a0, as⟩ <;> cases h
  | cons c rest ih =>
    simp only [subOf, Bool.or_eq_true, isPrefixOf_iff_ex, ih]
    constructor
    · rintro (⟨t, ht⟩ | ⟨a, b, hab⟩)
      · exact ⟨[], t, by simp [ht]⟩
      · exact ⟨c :: a, b, by simp [hab]⟩
    · rintro ⟨a, b, hab⟩
      cases a with
      | nil =>
        exact Or.inl ⟨b, by simpa using hab⟩
      | cons a0 as =>
        simp only [List.cons_append, List.cons.injEq] at hab
        exact Or.inr ⟨as, b, hab.2⟩

theorem subOf_ne_nil {q s : List Char} (h : subOf q s = true) (hq : q ≠ []) :
    s ≠ [] := by
  obtain ⟨a, b, rfl⟩ := (subOf_iff q s).mp h
  intro hn
  rcases List.append_eq_nil.mp hn with ⟨h1, -⟩
  exact hq (List.append_eq_nil.mp h1).2

theorem pyTruthy_iff (o : Option String) :
    pyTruthy o = true ↔ ∃ s, o = some s ∧ s ≠ "" := by
  cases o with
  | none => simp [pyTruthy]
  | some s =>
    simp only [pyTruthy, Bool.not_eq_true', Option.some.injEq]
    constructor
    · intro h
      refine ⟨s, rfl, fun hs => ?_⟩
      rw [hs] at h
      cases h
    · rintro ⟨t, rfl, ht⟩
      cases he : s.isEmpty
      · rfl
      · exact absurd ((String.isEmpty_iff s).mp he) ht

theorem data_ne_nil_of_ne_empty {q : String} (hq : q ≠ "") : q.data ≠ [] :=
  fun hd => hq (String.ext (hd.trans rfl))

theorem pyTruthy_some_of_ne {s : String} (h : s ≠ "") : pyTruthy (some s) = true :=
  (pyTruthy_iff _).mpr ⟨s, rfl, h⟩

theorem stageErrorMsg_inj : ∀ s t : StageId, stageErrorMsg s = stageErrorMsg t → s = t := by
  intro s t h
  cases s <;> cases t <;> first | rfl | exact absurd h (by decide)

theorem generate_eq_bundle
    (openai : List (String × String) → Option String)
    (anthropic : String → Option String) (c : ClientDict) (now : String)
    {s1 s2 s3 : String}
    (hs1 : strategic_analysis openai c = some s1) (h1 : s1 ≠ "")
    (hs2 : narrative_development anthropic s1 c = some s2) (h2 : s2 ≠ "")
    (hs3 : plan_integration openai s1 s2 c = some s3) (h3 : s3 ≠ "") :
    generate_pitch_plan openai anthropic c now
      = (.bundle c.client_name s1 s2 s3 now,
         [.strategic_analysis, .narrative_development, .plan_integration]) := by
  simp only [generate_pitch_plan, hs1, Option.getD_some, hs2, hs3,
    pyTruthy_some_of_ne h1, pyTruthy_some_of_ne h2, pyTruthy_some_of_ne h3,
    if_true]

/-! ### Claims about the stage prompts -/

/-- C7 (counterexample): the claim "Stage 1's prompt embeds every Client
Record field verbatim" is false: for an extracted record whose
`pitch_deck` field holds the value `~PITCHDECK~`, that value does not
appear anywhere in the Stage-1 prompt — `format_client_info` never
renders the `pitch_deck` key. -/
theorem claim7_pitch_deck_missing :
    extract_client_data ⟨200, [pagePitchDeck]⟩ "Acme"
      = .ok (parse_client_page pagePitchDeck) ∧
    (parse_client_page pagePitchDeck).pitch_deck = some "~PITCHDECK~" ∧
    ¬ Appears "~PITCHDECK~" (strategicPrompt (parse_client_page pagePitchDeck)) := by
  refine ⟨by decide, rfl, fun h => ?_⟩
  have hmem : ('~' : Char) ∈ ("~PITCHDECK~" : String).data := by decide
  have : ('~' : Char) ∈ (strategicPrompt (parse_client_page pagePitchDeck)).data :=
    appears_mem h hmem
  revert this
  decide

/-- C7 (amended): Stage 1's prompt embeds, verbatim, the rendering of
every Client Record field that `format_client_info` reads — client
name, status, category, services, account owner, sales owner and the
four data-source links (with the code's `Unknown`/`N/A` defaults) — but
not the `pitch_deck` field. -/
theorem claim7_fields_in_prompt (c : ClientDict) :
    Appears (c.client_name.getD "Unknown") (strategicPrompt c) ∧
    Appears (c.status.getD "Unknown") (strategicPrompt c) ∧
    Appears (c.category.getD "Unknown") (strategicPrompt c) ∧
    Appears (servicesText c) (strategicPrompt c) ∧
    Appears (c.so_owner.getD "Unknown") (strategicPrompt c) ∧
    Appears (c.sales_owner.getD "Unknown") (strategicPrompt c) ∧
    Appears (c.qualification_call.getD "N/A") (strategicPrompt c) ∧
    Appears (c.discovery_call.getD "N/A") (strategicPrompt c) ∧
    Appears (c.discovery_notes.getD "N/A") (strategicPrompt c) ∧
    Appears (c.pitch_strategy.getD "N/A") (strategicPrompt c) := by
  unfold strategicPrompt format_client_info
  refine ⟨?_, ?_, ?_, ?_, ?_, ?_, ?_, ?_, ?_, ?_⟩ <;>
    (apply appears_cat_right; apply appears_cat_left)
  · iterate 1 (apply appears_cat_right)
    exact appears_head _ _
  · iterate 3 (apply appears_cat_right)
    exact appears_head _ _
  · iterate 5 (apply appears_cat_right)
    exact appears_head _ _
  · iterate 7 (apply appears_cat_right)
    exact appears_head _ _
  · iterate 9 (apply appears_cat_right)
    exact appears_head _ _
  · iterate 11 (apply appears_cat_right)
    exact appears_head _ _
  · iterate 13 (apply appears_cat_right)
    exact appears_head _ _
  · iterate 15 (apply appears_cat_right)
    exact appears_head _ _
  · iterate 17 (apply appears_cat_right)
    exact appears_head _ _
  · iterate 19 (apply appears_cat_right)
    exact appears_head _ _

/-- C8: Stage 2's prompt contains the full untruncated Stage-1 output
and the client name; Stage 3's prompt contains the full untruncated
Stage-1 and Stage-2 outputs and the client name. -/
theorem claim8_prompt_inclusion
    (strategic_foundation narrative : String) (c : ClientDict) (n : String)
    (h : c.client_name = some n) :
    Appears strategic_foundation (narrativePrompt strategic_foundation c) ∧
    Appears n (narrativePrompt strategic_foundation c) ∧
    Appears strategic_foundation (planPrompt strategic_foundation narrative c) ∧
    Appears narrative (planPrompt strategic_foundation narrative c) ∧
    Appears n (planPrompt strategic_foundation narrative c) := by
  simp only [narrativePrompt, planPrompt, h, Option.getD_some]
  refine ⟨?_, ?_, ?_, ?_, ?_⟩
  · exact appears_cat_right _ (appears_head _ _)
  · iterate 3 (apply appears_cat_right)
    exact appears_head _ _
  · exact appears_cat_right _ (appears_head _ _)
  · iterate 3 (apply appears_cat_right)
    exact appears_head _ _
  · iterate 5 (apply appears_cat_right)
    exact appears_head _ _

/-- Witness for C8 at a concrete record, foundation and narrative. -/
theorem claim8_prompt_inclusion_witness :
    sampleDict.client_name = some "Acme" ∧
    (Appears "SF" (narrativePrompt "SF" sampleDict) ∧
     Appears "Acme" (narrativePrompt "SF" sampleDict) ∧
     Appears "SF" (planPrompt "SF" "NV" sampleDict) ∧
     Appears "NV" (planPrompt "SF" "NV" sampleDict) ∧
     Appears "Acme" (planPrompt "SF" "NV" sampleDict)) :=
  ⟨rfl, claim8_prompt_inclusion "SF" "NV" sampleDict "Acme" rfl⟩

/-! ### Claims about extraction -/

/-- C9: on a successful (200) query, client lookup returns the first
record in database order whose title contains the query as a substring
ignoring case, `none` exactly when no record matches; and a record named
"Acme Corp" is found by the query "acme". -/
theorem claim9_lookup :
    (∀ (rs : List NotionPage) (q : String) (p : NotionPage),
      find_client_page ⟨200, rs⟩ q = some p ↔
        pageMatches q p = true ∧
        ∃ pre post, rs = pre ++ p :: post ∧ ∀ x ∈ pre, pageMatches q x = false) ∧
    (∀ (rs : List NotionPage) (q : String),
      find_client_page ⟨200, rs⟩ q = none ↔ ∀ x ∈ rs, pageMatches q x = false) ∧
    (∀ (q : String) (p : NotionPage),
      pageMatches q p = true ↔
        ∃ a b, lowerData (extract_title p.nameProp) = a ++ lowerData q ++ b) ∧
    find_client_page ⟨200, [acmeCorpPage]⟩ "acme" = some acmeCorpPage := by
  refine ⟨fun rs q p => ?_, fun rs q => ?_, fun q p => subOf_iff _ _, by decide⟩
  · rw [show find_client_page ⟨200, rs⟩ q = rs.find? (pageMatches q) from rfl,
      List.find?_eq_some]
    simp only [Bool.not_eq_true']
  · rw [show find_client_page ⟨200, rs⟩ q = rs.find? (pageMatches q) from rfl,
      List.find?_eq_none]
    simp only [Bool.not_eq_true]

/-- C6 (counterexample): the claim that every non-name field of an
extracted record carries an explicit "unknown" sentinel is false: for a
page with no Status/Services properties, the extracted record holds the
empty string (and the empty list), not an "unknown" sentinel. -/
theorem claim6_empty_defaults :
    extract_client_data ⟨200, [pageNameOnly]⟩ "Acme"
      = .ok (parse_client_page pageNameOnly) ∧
    (parse_client_page pageNameOnly).status = some "" ∧
    (parse_client_page pageNameOnly).status ≠ some "unknown" ∧
    (parse_client_page pageNameOnly).status ≠ some "Unknown" ∧
    (parse_client_page pageNameOnly).services = some [] :=
  ⟨by decide, rfl, by decide, by decide, rfl⟩

/-- C6 (amended): every record produced by `extract_client_data` for a
non-empty query has a non-empty client name, and every other field is
present (so downstream `dict.get` never falls back to its missing-key
default) — but absent page properties yield the empty string / empty
list, not an "unknown" sentinel. -/
theorem claim6_record_shape (resp : NotionQueryResponse) (q : String)
    (d : ClientDict) (hq : q ≠ "") (h : extract_client_data resp q = .ok d) :
    (∃ t, d.client_name = some t ∧ t ≠ "") ∧
    d.status.isSome ∧ d.services.isSome ∧ d.category.isSome ∧
    d.qualification_call.isSome ∧ d.discovery_call.isSome ∧
    d.discovery_notes.isSome ∧ d.pitch_strategy.isSome ∧
    d.pitch_deck.isSome ∧ d.so_owner.isSome ∧ d.sales_owner.isSome := by
  unfold extract_client_data at h
  cases hf : find_client_page resp q with
  | none =>
    rw [hf] at h
    exact ExtractResult.noConfusion h
  | some p =>
    rw [hf] at h
    injection h with h2
    subst h2
    unfold find_client_page at hf
    by_cases hs : resp.status = 200
    · rw [if_pos hs] at hf
      have hm : pageMatches q p = true := List.find?_some hf
      unfold pageMatches at hm
      have hql : lowerData q ≠ [] := by
        unfold lowerData
        intro hh
        exact data_ne_nil_of_ne_empty hq (List.map_eq_nil_iff.mp hh)
      have htl := subOf_ne_nil hm hql
      have htne : extract_title p.nameProp ≠ "" := by
        intro hh
        apply htl
        unfold lowerData
        rw [hh]
        rfl
      exact ⟨⟨extract_title p.nameProp, rfl, htne⟩,
        rfl, rfl, rfl, rfl, rfl, rfl, rfl, rfl, rfl, rfl⟩
    · rw [if_neg hs] at hf
      exact Option.noConfusion hf

/-- Witness for C6 (amended) at a concrete page and query. -/
theorem claim6_record_shape_witness :
    ("Acme" : String) ≠ "" ∧
    extract_client_data ⟨200, [pageNameOnly]⟩ "Acme"
      = .ok (parse_client_page pageNameOnly) ∧
    ((∃ t, (parse_client_page pageNameOnly).client_name = some t ∧ t ≠ "") ∧
     (parse_client_page pageNameOnly).status.isSome ∧
     (parse_client_page pageNameOnly).services.isSome ∧
     (parse_client_page pageNameOnly).category.isSome ∧
     (parse_client_page pageNameOnly).qualification_call.isSome ∧
     (parse_client_page pageNameOnly).discovery_call.isSome ∧
     (parse_client_page pageNameOnly).discovery_notes.isSome ∧
     (parse_client_page pageNameOnly).pitch_strategy.isSome ∧
     (parse_client_page pageNameOnly).pitch_deck.isSome ∧
     (parse_client_page pageNameOnly).so_owner.isSome ∧
     (parse_client_page pageNameOnly).sales_owner.isSome) :=
  ⟨by decide, by decide,
    claim6_record_shape ⟨200, [pageNameOnly]⟩ "Acme" (parse_client_page pageNameOnly)
      (by decide) (by decide)⟩

/-- C10: a non-200 database-query status makes `find_client_page` return
`None`, so `extract_client_data` returns the same "client not found"
error value as when no record matches, and the job ends at the
extracting phase with the client-not-found notification. -/
theorem claim10_non200_as_not_found (st : Nat) (rs : List NotionPage) (q : String)
    (genR : PyResult PipelineResult) (pubR : PyResult (Option String))
    (recipients : List String) (hst : st ≠ 200) :
    find_client_page ⟨st, rs⟩ q = none ∧
    extract_client_data ⟨st, rs⟩ q = .err (clientNotFoundMsg q) ∧
    extract_client_data ⟨st, rs⟩ q = extract_client_data ⟨200, []⟩ q ∧
    process_pitch_plan q (.ok (extract_client_data ⟨st, rs⟩ q)) genR pubR recipients
      = [.step1 q, .notFound q] := by
  have hf : find_client_page ⟨st, rs⟩ q = none := by
    unfold find_client_page
    rw [if_neg hst]
  have he : extract_client_data ⟨st, rs⟩ q = .err (clientNotFoundMsg q) := by
    unfold extract_client_data
    rw [hf]
  refine ⟨hf, he, ?_, ?_⟩
  · rw [he]
    rfl
  · rw [he]
    rfl

/-- Witness for C10 at a concrete failed (503) query. -/
theorem claim10_non200_witness :
    (503 : Nat) ≠ 200 ∧
    (find_client_page ⟨503, [pageNameOnly]⟩ "Acme" = none ∧
     extract_client_data ⟨503, [pageNameOnly]⟩ "Acme"
       = .err (clientNotFoundMsg "Acme") ∧
     extract_client_data ⟨503, [pageNameOnly]⟩ "Acme"
       = extract_client_data ⟨200, []⟩ "Acme" ∧
     process_pitch_plan "Acme" (.ok (extract_client_data ⟨503, [pageNameOnly]⟩ "Acme"))
       (.exn "boom") (.ok none) [] = [.step1 "Acme", .notFound "Acme"]) :=
  ⟨by decide,
    claim10_non200_as_not_found 503 [pageNameOnly] "Acme" (.exn "boom") (.ok none) []
      (by decide)⟩

/-! ### Claims about the provider adapters -/

/-- C3 (counterexample): the claim that the adapters never raise past
their boundary is false on malformed 200 bodies: with status 200 and a
body missing the expected fields, both adapters raise (`KeyError`)
instead of returning the `None` failure value. -/
theorem claim3_raises_on_malformed_body :
    openai_chat_completion ⟨200, .obj []⟩ = .exn "KeyError" ∧
    anthropic_completion ⟨200, .obj []⟩ = .exn "KeyError" ∧
    openai_chat_completion ⟨200, .obj []⟩ ≠ .ok none ∧
    anthropic_completion ⟨200, .obj []⟩ ≠ .ok none :=
  ⟨rfl, rfl, fun h => PyResult.noConfusion h, fun h => PyResult.noConfusion h⟩

/-- C3 (amended): on any response with a non-2xx (here: non-200) status
both adapters return the `None` failure value and do not raise; only a
malformed 2xx body raises. -/
theorem claim3_failure_value_on_non2xx (resp : HttpResponse)
    (h : resp.status ≠ 200) :
    openai_chat_completion resp = .ok none ∧
    anthropic_completion resp = .ok none := by
  unfold openai_chat_completion anthropic_completion
  rw [if_neg h, if_neg h]
  exact ⟨rfl, rfl⟩

/-- Witness for C3 (amended) at a concrete 500 response. -/
theorem claim3_failure_value_witness :
    (500 : Nat) ≠ 200 ∧
    (openai_chat_completion ⟨500, .jnull⟩ = .ok none ∧
     anthropic_completion ⟨500, .jnull⟩ = .ok none) :=
  ⟨by decide, claim3_failure_value_on_non2xx ⟨500, .jnull⟩ (by decide)⟩

/-! ### Claims about the orchestrator -/

/-- C1: for every client record with a non-empty name, the orchestrator
returns either the bundle carrying the client name, the three non-empty
stage outputs and the timestamp, or the error dict naming exactly one
stage — the earliest stage whose adapter call yielded no usable text
(`None` or empty), with no later stage called. -/
theorem claim1_pipeline_outcome
    (openai : List (String × String) → Option String)
    (anthropic : String → Option String) (c : ClientDict) (now n : String)
    (hn : c.client_name = some n) (hne : n ≠ "") :
    (∀ s t : StageId, stageErrorMsg s = stageErrorMsg t → s = t) ∧
    ((pyTruthy (stageResult openai anthropic c .strategic_analysis) = false ∧
      generate_pitch_plan openai anthropic c now =
        (.error (stageErrorMsg .strategic_analysis), [.strategic_analysis])) ∨
     (pyTruthy (stageResult openai anthropic c .strategic_analysis) = true ∧
      pyTruthy (stageResult openai anthropic c .narrative_development) = false ∧
      generate_pitch_plan openai anthropic c now =
        (.error (stageErrorMsg .narrative_development),
         [.strategic_analysis, .narrative_development])) ∨
     (pyTruthy (stageResult openai anthropic c .strategic_analysis) = true ∧
      pyTruthy (stageResult openai anthropic c .narrative_development) = true ∧
      pyTruthy (stageResult openai anthropic c .plan_integration) = false ∧
      generate_pitch_plan openai anthropic c now =
        (.error (stageErrorMsg .plan_integration),
         [.strategic_analysis, .narrative_development, .plan_integration])) ∨
     (∃ s1 s2 s3 : String, s1 ≠ "" ∧ s2 ≠ "" ∧ s3 ≠ "" ∧
      stageResult openai anthropic c .strategic_analysis = some s1 ∧
      stageResult openai anthropic c .narrative_development = some s2 ∧
      stageResult openai anthropic c .plan_integration = some s3 ∧
      generate_pitch_plan openai anthropic c now =
        (.bundle (some n) s1 s2 s3 now,
         [.strategic_analysis, .narrative_development, .plan_integration]))) := by
  refine ⟨stageErrorMsg_inj, ?_⟩
  have e1 : stageResult openai anthropic c .strategic_analysis
      = strategic_analysis openai c := rfl
  have e2 : stageResult openai anthropic c .narrative_development
      = narrative_development anthropic ((strategic_analysis openai c).getD "") c := rfl
  have e3 : stageResult openai anthropic c .plan_integration
      = plan_integration openai ((strategic_analysis openai c).getD "")
          ((narrative_development anthropic
            ((strategic_analysis openai c).getD "") c).getD "") c := rfl
  cases ht1 : pyTruthy (strategic_analysis openai c) with
  | false =>
    exact Or.inl ⟨by rw [e1, ht1], by simp [generate_pitch_plan, ht1]⟩
  | true =>
    cases ht2 : pyTruthy (narrative_development anthropic
        ((strategic_analysis openai c).getD "") c) with
    | false =>
      exact Or.inr (Or.inl ⟨by rw [e1, ht1], by rw [e2, ht2],
        by simp [generate_pitch_plan, ht1, ht2]⟩)
    | true =>
      cases ht3 : pyTruthy (plan_integration openai
          ((strategic_analysis openai c).getD "")
          ((narrative_development anthropic
            ((strategic_analysis openai c).getD "") c).getD "") c) with
      | false =>
        exact Or.inr (Or.inr (Or.inl ⟨by rw [e1, ht1], by rw [e2, ht2],
          by rw [e3, ht3], by simp [generate_pitch_plan, ht1, ht2, ht3]⟩))
      | true =>
        obtain ⟨s1, hs1, hs1n⟩ := (pyTruthy_iff _).mp ht1
        obtain ⟨s2, hs2, hs2n⟩ := (pyTruthy_iff _).mp ht2
        obtain ⟨s3, hs3, hs3n⟩ := (pyTruthy_iff _).mp ht3
        rw [hs1, Option.getD_some] at hs2 hs3
        rw [hs2, Option.getD_some] at hs3
        have hg := generate_eq_bundle openai anthropic c now hs1 hs1n hs2 hs2n hs3 hs3n
        refine Or.inr (Or.inr (Or.inr ⟨s1, s2, s3, hs1n, hs2n, hs3n, ?_, ?_, ?_, ?_⟩))
        · rw [e1]
          exact hs1
        · rw [e2, hs1, Option.getD_some]
          exact hs2
        · rw [e3]
          simp only [hs1, Option.getD_some, hs2]
          exact hs3
        · rw [hg, hn]

/-- Witness for C1 on a concrete record and all-successful adapters. -/
theorem claim1_pipeline_outcome_witness :
    sampleDict.client_name = some "Acme" ∧ ("Acme" : String) ≠ "" ∧
    ((∀ s t : StageId, stageErrorMsg s = stageErrorMsg t → s = t) ∧
     ((pyTruthy (stageResult (fun _ => some "S") (fun _ => some "N") sampleDict
          .strategic_analysis) = false ∧
       generate_pitch_plan (fun _ => some "S") (fun _ => some "N") sampleDict "ts" =
         (.error (stageErrorMsg .strategic_analysis), [.strategic_analysis])) ∨
      (pyTruthy (stageResult (fun _ => some "S") (fun _ => some "N") sampleDict
          .strategic_analysis) = true ∧
       pyTruthy (stageResult (fun _ => some "S") (fun _ => some "N") sampleDict
          .narrative_development) = false ∧
       generate_pitch_plan (fun _ => some "S") (fun _ => some "N") sampleDict "ts" =
         (.error (stageErrorMsg .narrative_development),
          [.strategic_analysis, .narrative_development])) ∨
      (pyTruthy (stageResult (fun _ => some "S") (fun _ => some "N") sampleDict
          .strategic_analysis) = true ∧
       pyTruthy (stageResult (fun _ => some "S") (fun _ => some "N") sampleDict
          .narrative_development) = true ∧
       pyTruthy (stageResult (fun _ => some "S") (fun _ => some "N") sampleDict
          .plan_integration) = false ∧
       generate_pitch_plan (fun _ => some "S") (fun _ => some "N") sampleDict "ts" =
         (.error (stageErrorMsg .plan_integration),
          [.strategic_analysis, .narrative_development, .plan_integration])) ∨
      (∃ s1 s2 s3 : String, s1 ≠ "" ∧ s2 ≠ "" ∧ s3 ≠ "" ∧
       stageResult (fun _ => some "S") (fun _ => some "N") sampleDict
         .strategic_analysis = some s1 ∧
       stageResult (fun _ => some "S") (fun _ => some "N") sampleDict
         .narrative_development = some s2 ∧
       stageResult (fun _ => some "S") (fun _ => some "N") sampleDict
         .plan_integration = some s3 ∧
       generate_pitch_plan (fun _ => some "S") (fun _ => some "N") sampleDict "ts" =
         (.bundle (some "Acme") s1 s2 s3 "ts",
          [.strategic_analysis, .narrative_development, .plan_integration])))) :=
  ⟨rfl, by decide,
    claim1_pipeline_outcome (fun _ => some "S") (fun _ => some "N") sampleDict
      "ts" "Acme" rfl (by decide)⟩

/-- C2: if Stage 1 yields no usable text, Stages 2 and 3 are never
called; if Stage 2 yields no usable text, Stage 3 is never called; and
no stage adapter is ever called more than once per run. -/
theorem claim2_short_circuit
    (openai : List (String × String) → Option String)
    (anthropic : String → Option String) (c : ClientDict) (now : String) :
    (pyTruthy (stageResult openai anthropic c .strategic_analysis) = false →
      (generate_pitch_plan openai anthropic c now).2.count .narrative_development = 0 ∧
      (generate_pitch_plan openai anthropic c now).2.count .plan_integration = 0) ∧
    (pyTruthy (stageResult openai anthropic c .narrative_development) = false →
      (generate_pitch_plan openai anthropic c now).2.count .plan_integration = 0) ∧
    (∀ st : StageId, (generate_pitch_plan openai anthropic c now).2.count st ≤ 1) := by
  cases ht1 : pyTruthy (strategic_analysis openai c) with
  | false =>
    have hg2 : (generate_pitch_plan openai anthropic c now).2
        = [.strategic_analysis] := by
      simp [generate_pitch_plan, ht1]
    refine ⟨fun _ => ?_, fun _ => ?_, fun st => ?_⟩
    · rw [hg2]
      decide
    · rw [hg2]
      decide
    · rw [hg2]
      cases st <;> decide
  | true =>
    cases ht2 : pyTruthy (narrative_development anthropic
        ((strategic_analysis openai c).getD "") c) with
    | false =>
      have hg2 : (generate_pitch_plan openai anthropic c now).2
          = [.strategic_analysis, .narrative_development] := by
        simp [generate_pitch_plan, ht1, ht2]
      refine ⟨fun h => ?_, fun _ => ?_, fun st => ?_⟩
      · have h' : pyTruthy (strategic_analysis openai c) = false := h
        exact Bool.noConfusion (ht1.symm.trans h')
      · rw [hg2]
        decide
      · rw [hg2]
        cases st <;> decide
    | true =>
      cases ht3 : pyTruthy (plan_integration openai
          ((strategic_analysis openai c).getD "")
          ((narrative_development anthropic
            ((strategic_analysis openai c).getD "") c).getD "") c) with
      | false =>
        have hg2 : (generate_pitch_plan openai anthropic c now).2
            = [.strategic_analysis, .narrative_development, .plan_integration] := by
          simp [generate_pitch_plan, ht1, ht2, ht3]
        refine ⟨fun h => ?_, fun h => ?_, fun st => ?_⟩
        · have h' : pyTruthy (strategic_analysis openai c) = false := h
          exact Bool.noConfusion (ht1.symm.trans h')
        · have h' : pyTruthy (narrative_development anthropic
              ((strategic_analysis openai c).getD "") c) = false := h
          exact Bool.noConfusion (ht2.symm.trans h')
        · rw [hg2]
          cases st <;> decide
      | true =>
        obtain ⟨s1, hs1, hs1n⟩ := (pyTruthy_iff _).mp ht1
        obtain ⟨s2, hs2, hs2n⟩ := (pyTruthy_iff _).mp ht2
        obtain ⟨s3, hs3, hs3n⟩ := (pyTruthy_iff _).mp ht3
        rw [hs1, Option.getD_some] at hs2 hs3
        rw [hs2, Option.getD_some] at hs3
        have hg := generate_eq_bundle openai anthropic c now hs1 hs1n hs2 hs2n hs3 hs3n
        have hg2 : (generate_pitch_plan openai anthropic c now).2
            = [.strategic_analysis, .narrative_development, .plan_integration] := by
          rw [hg]
        refine ⟨fun h => ?_, fun h => ?_, fun st => ?_⟩
        · have h' : pyTruthy (strategic_analysis openai c) = false := h
          exact Bool.noConfusion (ht1.symm.trans h')
        · have h' : pyTruthy (narrative_development anthropic
              ((strategic_analysis openai c).getD "") c) = false := h
          exact Bool.noConfusion (ht2.symm.trans h')
        · rw [hg2]
          cases st <;> decide

/-- Witness for C2 with a failing Stage-1 adapter. -/
theorem claim2_short_circuit_witness :
    (pyTruthy (stageResult (fun _ => none) (fun _ => none) sampleDict
      .strategic_analysis) = false) ∧
    ((generate_pitch_plan (fun _ => none) (fun _ => none) sampleDict "ts").2.count
        .narrative_development = 0 ∧
     (generate_pitch_plan (fun _ => none) (fun _ => none) sampleDict "ts").2.count
        .plan_integration = 0) :=
  ⟨rfl, (claim2_short_circuit (fun _ => none) (fun _ => none) sampleDict "ts").1 rfl⟩

/-- C5: a successful bundle never contains an empty stage output, and a
stage whose adapter call returns the empty string is treated as the
failing stage (the run returns that stage's error dict). -/
theorem claim5_empty_output_fails
    (openai : List (String × String) → Option String)
    (anthropic : String → Option String) (c : ClientDict) (now : String) :
    (∀ name s1 s2 s3 ts,
      (generate_pitch_plan openai anthropic c now).1 = .bundle name s1 s2 s3 ts →
      s1 ≠ "" ∧ s2 ≠ "" ∧ s3 ≠ "") ∧
    (stageResult openai anthropic c .strategic_analysis = some "" →
      (generate_pitch_plan openai anthropic c now).1
        = .error (stageErrorMsg .strategic_analysis)) ∧
    (pyTruthy (stageResult openai anthropic c .strategic_analysis) = true →
      stageResult openai anthropic c .narrative_development = some "" →
      (generate_pitch_plan openai anthropic c now).1
        = .error (stageErrorMsg .narrative_development)) ∧
    (pyTruthy (stageResult openai anthropic c .strategic_analysis) = true →
      pyTruthy (stageResult openai anthropic c .narrative_development) = true →
      stageResult openai anthropic c .plan_integration = some "" →
      (generate_pitch_plan openai anthropic c now).1
        = .error (stageErrorMsg .plan_integration)) := by
  refine ⟨?_, ?_, ?_, ?_⟩
  · intro name s1 s2 s3 ts h
    cases ht1 : pyTruthy (strategic_analysis openai c) with
    | false => simp [generate_pitch_plan, ht1] at h
    | true =>
      cases ht2 : pyTruthy (narrative_development anthropic
          ((strategic_analysis openai c).getD "") c) with
      | false => simp [generate_pitch_plan, ht1, ht2] at h
      | true =>
        cases ht3 : pyTruthy (plan_integration openai
            ((strategic_analysis openai c).getD "")
            ((narrative_development anthropic
              ((strategic_analysis openai c).getD "") c).getD "") c) with
        | false => simp [generate_pitch_plan, ht1, ht2, ht3] at h
        | true =>
          obtain ⟨t1, he1, hn1⟩ := (pyTruthy_iff _).mp ht1
          obtain ⟨t2, he2, hn2⟩ := (pyTruthy_iff _).mp ht2
          obtain ⟨t3, he3, hn3⟩ := (pyTruthy_iff _).mp ht3
          rw [he1, Option.getD_some] at he2 he3
          rw [he2, Option.getD_some] at he3
          have hg := generate_eq_bundle openai anthropic c now he1 hn1 he2 hn2 he3 hn3
          rw [hg] at h
          simp only [PipelineResult.bundle.injEq] at h
          obtain ⟨-, h1, h2, h3, -⟩ := h
          exact ⟨h1 ▸ hn1, h2 ▸ hn2, h3 ▸ hn3⟩
  · intro h
    have h' : strategic_analysis openai c = some "" := h
    have hf : pyTruthy (strategic_analysis openai c) = false := by rw [h']; rfl
    simp [generate_pitch_plan, hf]
  · intro h1 h2
    have h1' : pyTruthy (strategic_analysis openai c) = true := h1
    have h2' : narrative_development anthropic
        ((strategic_analysis openai c).getD "") c = some "" := h2
    have hf : pyTruthy (narrative_development anthropic
        ((strategic_analysis openai c).getD "") c) = false := by rw [h2']; rfl
    simp [generate_pitch_plan, h1', hf]
  · intro h1 h2 h3
    have h1' : pyTruthy (strategic_analysis openai c) = true := h1
    have h2' : pyTruthy (narrative_development anthropic
        ((strategic_analysis openai c).getD "") c) = true := h2
    have h3' : plan_integration openai ((strategic_analysis openai c).getD "")
        ((narrative_development anthropic
          ((strategic_analysis openai c).getD "") c).getD "") c = some "" := h3
    have hf : pyTruthy (plan_integration openai
        ((strategic_analysis openai c).getD "")
        ((narrative_development anthropic
          ((strategic_analysis openai c).getD "") c).getD "") c) = false := by
      rw [h3']; rfl
    simp [generate_pitch_plan, h1', h2', hf]

/-- Witness for C5 with a Stage-1 adapter returning the empty string. -/
theorem claim5_empty_output_fails_witness :
    (stageResult (fun _ => some "") (fun _ => none) sampleDict
      .strategic_analysis = some "") ∧
    (generate_pitch_plan (fun _ => some "") (fun _ => none) sampleDict "ts").1
      = .error (stageErrorMsg .strategic_analysis) :=
  ⟨rfl, (claim5_empty_output_fails (fun _ => some "") (fun _ => none)
    sampleDict "ts").2.1 rfl⟩

/-! ### Claim about the job runner -/

/-- C4: for every job execution (non-empty stripped client name), the
notification kinds are exactly RECEIVED, EXTRACTING, GENERATING,
PUBLISHING, DONE on the full-success path, and on every failure path a
strict prefix of that sequence followed by exactly one failure
notification. -/
theorem claim4_notification_order (text : String)
    (extractR : PyResult ExtractResult) (genR : PyResult PipelineResult)
    (pubR : PyResult (Option String)) (recipients : List String)
    (h : (pyStrip text).isEmpty = false) :
    (handle_start_pitch text extractR genR pubR recipients).map kindOf
      = successKinds ∨
    ∃ k, k < 5 ∧
      (handle_start_pitch text extractR genR pubR recipients).map kindOf
        = successKinds.take k ++ [.failed] := by
  have htr : handle_start_pitch text extractR genR pubR recipients
      = .starting (pyStrip text) ::
          process_pitch_plan (pyStrip text) extractR genR pubR recipients := by
    unfold handle_start_pitch
    simp [h]
  rw [htr]
  cases extractR with
  | exn m => exact Or.inr ⟨2, by decide, rfl⟩
  | ok er =>
    cases er with
    | err msg => exact Or.inr ⟨2, by decide, rfl⟩
    | ok d =>
      cases genR with
      | exn m => exact Or.inr ⟨3, by decide, rfl⟩
      | ok pr =>
        cases pr with
        | error msg => exact Or.inr ⟨3, by decide, rfl⟩
        | bundle name s1 s2 s3 ts =>
          cases pubR with
          | exn m => exact Or.inr ⟨4, by decide, rfl⟩
          | ok u =>
            cases u with
            | none => exact Or.inr ⟨4, by decide, rfl⟩
            | some url => exact Or.inl rfl

/-- Witness for C4 on a fully successful concrete job. -/
theorem claim4_notification_order_witness :
    ((pyStrip "Acme").isEmpty = false) ∧
    ((handle_start_pitch "Acme" (.ok (.ok sampleDict))
        (.ok (.bundle (some "Acme") "S" "N" "P" "ts"))
        (.ok (some "doc-url")) ["team@x"]).map kindOf = successKinds ∨
     ∃ k, k < 5 ∧
       (handle_start_pitch "Acme" (.ok (.ok sampleDict))
          (.ok (.bundle (some "Acme") "S" "N" "P" "ts"))
          (.ok (some "doc-url")) ["team@x"]).map kindOf
         = successKinds.take k ++ [.failed]) :=
  ⟨by decide,
    claim4_notification_order "Acme" (.ok (.ok sampleDict))
      (.ok (.bundle (some "Acme") "S" "N" "P" "ts"))
      (.ok (some "doc-url")) ["team@x"] (by decide)⟩

end NestPitch
